import Mathlib

/-!
Verification of `page_process_mining_made_easy.py` (process-mining-made-easy).

The script's own computational content is embedded shallowly:

* durations are Python floats; they are modelled as exact rationals (`ℚ`),
  with Python's `round` (banker's rounding, half to even) modelled exactly
  on `ℚ`;
* Python dynamic cell values of a dataframe are modelled as `String`
  (Python `str` becomes the identity), a dataframe as a list of rows, each
  row a lookup function from column name to value;
* the external calls (`pandas.read_excel`, `pm4py.format_dataframe`) are
  modelled by their documented behaviour: the reader returns the requested
  sheet, and `format_dataframe` yields one event per dataframe row,
  projecting the designated case / activity / timestamp columns;
* the filesystem seen by `clear_tempfiles` is modelled as the listing of
  the temporary folder: a list of entries, each with a name, a regular-file
  flag (`os.path.isfile`) and a modification time (`os.path.getmtime`);
* Streamlit control flow (the sequence of `if` blocks that sets `df` and
  `log` for one interaction) is modelled as pure functions of the widget
  state.
-/

/-- Python's `round` to an integer, modelled exactly on `ℚ`:
round half to even (banker's rounding), as CPython does. -/
def pyRound (q : ℚ) : ℤ :=
  if q - (⌊q⌋ : ℚ) < (1 : ℚ) / 2 then ⌊q⌋
  else if (1 : ℚ) / 2 < q - (⌊q⌋ : ℚ) then ⌊q⌋ + 1
  else if ⌊q⌋ % 2 = 0 then ⌊q⌋ else ⌊q⌋ + 1

/-- Rendering of a tenths-valued number `n / 10` the way a Python f-string
prints the float `round(x, 1)`: integer part, a dot, one digit. -/
def formatTenths (n : ℤ) : String :=
  if n < 0 then "-" ++ (toString (n.natAbs / 10) ++ "." ++ toString (n.natAbs % 10))
  else toString (n.toNat / 10) ++ "." ++ toString (n.toNat % 10)

/-- Python's `round(q, 1)` followed by f-string display. -/
def roundToTenthStr (q : ℚ) : String :=
  formatTenths (pyRound (q * 10))

/-- Embedding of `make_text_from_seconds` (lines 87-102): converts seconds
to a string with time in seconds, minutes, hours, days, weeks or months,
with the branch thresholds written exactly as in the source. -/
def make_text_from_seconds (seconds : ℚ) : String :=
  if seconds < 60 * 2 then toString (pyRound seconds) ++ " seconds"
  else if seconds < 3600 * 1 then toString (pyRound (seconds / 60)) ++ " minutes"
  else if seconds < 86400 * 1 then roundToTenthStr (seconds / 3600) ++ " hours"
  else if seconds < 604800 * 2 then roundToTenthStr (seconds / 86400) ++ " days"
  else if seconds < 2592000 * 1 then roundToTenthStr (seconds / 604800) ++ " weeks"
  else roundToTenthStr (seconds / 2592000) ++ " months"

lemma pyRound_eq_low {q : ℚ} {n : ℤ} (hfl : ⌊q⌋ = n) (h : q - (n : ℚ) < 1 / 2) :
    pyRound q = n := by
  unfold pyRound
  rw [hfl, if_pos h]

lemma pyRound_eq_high {q : ℚ} {n : ℤ} (hfl : ⌊q⌋ = n) (h : 1 / 2 < q - (n : ℚ)) :
    pyRound q = n + 1 := by
  unfold pyRound
  rw [hfl, if_neg (by linarith), if_pos h]

lemma mtfs_at_119 : make_text_from_seconds 119 = "119 seconds" := by
  unfold make_text_from_seconds
  rw [if_pos (by norm_num : (119 : ℚ) < 60 * 2),
    pyRound_eq_low (q := (119 : ℚ)) (n := 119) (by norm_num) (by norm_num)]
  decide

lemma mtfs_at_120 : make_text_from_seconds 120 = "2 minutes" := by
  unfold make_text_from_seconds
  rw [if_neg (by norm_num : ¬ ((120 : ℚ) < 60 * 2)),
    if_pos (by norm_num : (120 : ℚ) < 3600 * 1),
    pyRound_eq_low (q := (120 : ℚ) / 60) (n := 2) (by norm_num) (by norm_num)]
  decide

lemma mtfs_at_3599 : make_text_from_seconds 3599 = "60 minutes" := by
  unfold make_text_from_seconds
  rw [if_neg (by norm_num : ¬ ((3599 : ℚ) < 60 * 2)),
    if_pos (by norm_num : (3599 : ℚ) < 3600 * 1),
    pyRound_eq_high (q := (3599 : ℚ) / 60) (n := 59) (by norm_num) (by norm_num)]
  decide

lemma mtfs_at_3600 : make_text_from_seconds 3600 = "1.0 hours" := by
  unfold make_text_from_seconds
  rw [if_neg (by norm_num : ¬ ((3600 : ℚ) < 60 * 2)),
    if_neg (by norm_num : ¬ ((3600 : ℚ) < 3600 * 1)),
    if_pos (by norm_num : (3600 : ℚ) < 86400 * 1)]
  unfold roundToTenthStr
  rw [pyRound_eq_low (q := (3600 : ℚ) / 3600 * 10) (n := 10) (by norm_num) (by norm_num)]
  decide

/-- The six unit labels `make_text_from_seconds` can append, in branch order. -/
def unitStrs : List String :=
  [" seconds", " minutes", " hours", " days", " weeks", " months"]

/-- The unit label chosen by the branch structure of `make_text_from_seconds`,
with the thresholds written exactly as in the source. -/
def unit_of (s : ℚ) : String :=
  if s < 60 * 2 then " seconds"
  else if s < 3600 * 1 then " minutes"
  else if s < 86400 * 1 then " hours"
  else if s < 604800 * 2 then " days"
  else if s < 2592000 * 1 then " weeks"
  else " months"

/-- `make_text_from_seconds` renders `s` with unit label `unit`:
its output is some value text followed by `unit`. -/
def rendersIn (s : ℚ) (unit : String) : Prop :=
  ∃ v, make_text_from_seconds s = v ++ unit

lemma rendersIn_unit_of (s : ℚ) : rendersIn s (unit_of s) := by
  unfold rendersIn make_text_from_seconds unit_of
  split_ifs <;> exact ⟨_, rfl⟩

lemma unit_of_mem (s : ℚ) : unit_of s ∈ unitStrs := by
  unfold unit_of unitStrs
  split_ifs <;> simp

lemma drop_append_ne {v w t₁ t₂ : List Char} (hle : t₂.length ≤ t₁.length)
    (hne : t₁.drop (t₁.length - t₂.length) ≠ t₂) : v ++ t₁ ≠ w ++ t₂ := by
  intro h
  apply hne
  have h2 : (v ++ t₁.take (t₁.length - t₂.length)) ++ t₁.drop (t₁.length - t₂.length)
      = w ++ t₂ := by
    rw [List.append_assoc, List.take_append_drop]
    exact h
  exact List.append_inj_right' h2 (by rw [List.length_drop]; omega)

lemma string_append_ne {t₁ t₂ : String}
    (hle : t₂.data.length ≤ t₁.data.length)
    (hne : t₁.data.drop (t₁.data.length - t₂.data.length) ≠ t₂.data)
    (v w : String) : v ++ t₁ ≠ w ++ t₂ := by
  intro h
  have hd : v.data ++ t₁.data = w.data ++ t₂.data := by
    rw [← String.data_append, ← String.data_append, h]
  exact drop_append_ne hle hne hd

lemma unit_append_ne :
    ∀ u₁ ∈ unitStrs, ∀ u₂ ∈ unitStrs, u₁ ≠ u₂ →
      ∀ v w : String, v ++ u₁ ≠ w ++ u₂ := by
  have key : ∀ x ∈ unitStrs, ∀ y ∈ unitStrs, x ≠ y →
      y.data.length ≤ x.data.length →
      x.data.drop (x.data.length - y.data.length) ≠ y.data := by decide
  intro u₁ h₁ u₂ h₂ hne v w
  rcases le_total u₂.data.length u₁.data.length with hle | hle
  · exact string_append_ne hle (key u₁ h₁ u₂ h₂ hne hle) v w
  · exact fun h => string_append_ne hle (key u₂ h₂ u₁ h₁ hne.symm hle) w v h.symm

lemma rendersIn_unique {s : ℚ} {u : String} (hu : u ∈ unitStrs)
    (hr : rendersIn s u) : u = unit_of s := by
  by_contra hne
  obtain ⟨v, hv⟩ := hr
  obtain ⟨w, hw⟩ := rendersIn_unit_of s
  exact unit_append_ne u hu (unit_of s) (unit_of_mem s) hne v w (hv.symm.trans hw)

lemma unit_of_eq_iff (s : ℚ) :
    (unit_of s = " seconds" ↔ s < 120) ∧
    (unit_of s = " minutes" ↔ 120 ≤ s ∧ s < 3600) ∧
    (unit_of s = " hours" ↔ 3600 ≤ s ∧ s < 86400) ∧
    (unit_of s = " days" ↔ 86400 ≤ s ∧ s < 1209600) ∧
    (unit_of s = " weeks" ↔ 1209600 ≤ s ∧ s < 2592000) ∧
    (unit_of s = " months" ↔ 2592000 ≤ s) := by
  unfold unit_of
  split_ifs with h1 h2 h3 h4 h5 <;>
    refine ⟨?_, ?_, ?_, ?_, ?_, ?_⟩ <;> constructor <;> intro h <;>
      first
        | rfl
        | exact absurd h (by decide)
        | linarith
        | constructor <;> linarith

lemma rendersIn_iff_unit_of (s : ℚ) {u : String} (hu : u ∈ unitStrs) :
    rendersIn s u ↔ unit_of s = u := by
  constructor
  · intro hr
    exact (rendersIn_unique hu hr).symm
  · intro h
    have hro := rendersIn_unit_of s
    rwa [h] at hro

lemma rendersIn_iff_ranges (s : ℚ) :
    (rendersIn s " seconds" ↔ s < 120) ∧
    (rendersIn s " minutes" ↔ 120 ≤ s ∧ s < 3600) ∧
    (rendersIn s " hours" ↔ 3600 ≤ s ∧ s < 86400) ∧
    (rendersIn s " days" ↔ 86400 ≤ s ∧ s < 1209600) ∧
    (rendersIn s " weeks" ↔ 1209600 ≤ s ∧ s < 2592000) ∧
    (rendersIn s " months" ↔ 2592000 ≤ s) := by
  obtain ⟨e1, e2, e3, e4, e5, e6⟩ := unit_of_eq_iff s
  have hr : ∀ u ∈ unitStrs, rendersIn s u ↔ unit_of s = u :=
    fun u hu => rendersIn_iff_unit_of s hu
  exact ⟨(hr _ (by decide)).trans e1, (hr _ (by decide)).trans e2,
    (hr _ (by decide)).trans e3, (hr _ (by decide)).trans e4,
    (hr _ (by decide)).trans e5, (hr _ (by decide)).trans e6⟩

/-- C1 (counterexample): the spec's example table says the input 3599
returns "59 minutes", but `make_text_from_seconds` rounds 3599/60 =
59.98… up to 60 and returns "60 minutes". -/
theorem claim_C1_counterexample : make_text_from_seconds 3599 ≠ "59 minutes" := by
  rw [mtfs_at_3599]
  decide

/-- C1 (amended): `make_text_from_seconds` satisfies the spec's example
table with the 3599 entry corrected: 119 ↦ "119 seconds", 120 ↦
"2 minutes", 3599 ↦ "60 minutes", 3600 ↦ "1.0 hours". -/
theorem claim_C1_amended :
    make_text_from_seconds 119 = "119 seconds" ∧
    make_text_from_seconds 120 = "2 minutes" ∧
    make_text_from_seconds 3599 = "60 minutes" ∧
    make_text_from_seconds 3600 = "1.0 hours" :=
  ⟨mtfs_at_119, mtfs_at_120, mtfs_at_3599, mtfs_at_3600⟩

/-- C5: `make_text_from_seconds` selects its display unit by the six fixed
thresholds: seconds iff s < 120, minutes iff 120 ≤ s < 3600, hours iff
3600 ≤ s < 86400, days iff 86400 ≤ s < 1209600, weeks iff
1209600 ≤ s < 2592000, and months iff s ≥ 2592000. -/
theorem claim_C5 :
    ∀ s : ℚ,
      (rendersIn s " seconds" ↔ s < 120) ∧
      (rendersIn s " minutes" ↔ 120 ≤ s ∧ s < 3600) ∧
      (rendersIn s " hours" ↔ 3600 ≤ s ∧ s < 86400) ∧
      (rendersIn s " days" ↔ 86400 ≤ s ∧ s < 1209600) ∧
      (rendersIn s " weeks" ↔ 1209600 ≤ s ∧ s < 2592000) ∧
      (rendersIn s " months" ↔ 2592000 ≤ s) :=
  fun s => rendersIn_iff_ranges s

/-- C10: `make_text_from_seconds` is total: every rational input, zero and
negative values included, is rendered with exactly one of the six unit
labels, and every input below 120 — in particular every negative input —
is rendered in the "seconds" unit. -/
theorem claim_C10 :
    ∀ s : ℚ,
      (∃! u, u ∈ unitStrs ∧ rendersIn s u) ∧
      (s < 120 → rendersIn s " seconds") :=
  fun s =>
    ⟨⟨unit_of s, ⟨unit_of_mem s, rendersIn_unit_of s⟩,
        fun _ hy => rendersIn_unique hy.1 hy.2⟩,
      fun h => (rendersIn_iff_ranges s).1.mpr h⟩

/-- C10 witness: at the concrete negative input -61 the hypothesis
-61 < 120 holds and the output is rendered in the "seconds" unit. -/
theorem claim_C10_witness : (-61 : ℚ) < 120 ∧ rendersIn (-61) " seconds" :=
  ⟨by norm_num, (claim_C10 (-61)).2 (by norm_num)⟩

/-- One entry of the temporary-files folder listing, as `clear_tempfiles`
observes it: its name, whether `os.path.isfile` holds, and its
`os.path.getmtime` modification time (a float, modelled as `ℚ`). -/
structure FsEntry where
  name : String
  isFile : Bool
  mtime : ℚ

/-- Embedding of `clear_tempfiles` (lines 24-42): given the current time
`now` and the folder listing, it removes every regular file whose
modification time is before `now - 3600` and returns the retained
entries. -/
def clear_tempfiles (now : ℚ) (entries : List FsEntry) : List FsEntry :=
  entries.filter fun e => !(e.isFile && decide (e.mtime < now - 3600))

/-- C3: `clear_tempfiles` retains an entry of the folder exactly when the
entry is not a regular file modified more than 3600 seconds before now;
so every regular file strictly older than one hour is removed and every
file modified at most one hour ago is retained. -/
theorem claim_C3 :
    ∀ (now : ℚ) (entries : List FsEntry) (e : FsEntry), e ∈ entries →
      (e ∈ clear_tempfiles now entries ↔ ¬(e.isFile = true ∧ e.mtime < now - 3600)) := by
  intro now entries e he
  cases hf : e.isFile <;> simp [clear_tempfiles, List.mem_filter, he, hf]

/-- A regular file modified 3660 seconds (61 minutes) before the sweep at
time 10000. -/
def oldEntry : FsEntry := ⟨"old.png", true, 6340⟩

/-- A regular file modified 3540 seconds (59 minutes) before the sweep at
time 10000. -/
def freshEntry : FsEntry := ⟨"fresh.png", true, 6460⟩

/-- The listing used by the C3 witness. -/
def demoListing : List FsEntry := [oldEntry, freshEntry]

/-- C3 witness: in a sweep at time 10000, the file modified 61 minutes ago
is removed and the file modified 59 minutes ago is retained. -/
theorem claim_C3_witness :
    oldEntry ∈ demoListing ∧ freshEntry ∈ demoListing ∧
    oldEntry ∉ clear_tempfiles 10000 demoListing ∧
    freshEntry ∈ clear_tempfiles 10000 demoListing :=
  ⟨by simp [demoListing], by simp [demoListing],
    fun hmem =>
      absurd ((claim_C3 10000 demoListing oldEntry (by simp [demoListing])).mp hmem)
        (fun hn => hn ⟨rfl, by norm_num [oldEntry]⟩),
    (claim_C3 10000 demoListing freshEntry (by simp [demoListing])).mpr
      (by rintro ⟨-, hlt⟩; norm_num [freshEntry] at hlt)⟩

/-- C8: `clear_tempfiles` only ever removes entries of the listing it was
given (the result is a sublist of the folder listing, so no path outside
the folder is touched), and every entry that is not a regular file is
retained regardless of its age. -/
theorem claim_C8 :
    ∀ (now : ℚ) (entries : List FsEntry),
      (clear_tempfiles now entries).Sublist entries ∧
      ∀ e, e ∈ entries → e.isFile = false → e ∈ clear_tempfiles now entries := by
  intro now entries
  constructor
  · exact List.filter_sublist _
  · intro e he hf
    unfold clear_tempfiles
    exact List.mem_filter.mpr ⟨he, by simp [hf]⟩

/-- A subdirectory entry (not a regular file) of modification time 0,
arbitrarily old. -/
def subdirEntry : FsEntry := ⟨"subdir", false, 0⟩

/-- C8 witness: at a sweep at time 20000 an arbitrarily old subdirectory
entry is retained, and the swept listing is a sublist of the original. -/
theorem claim_C8_witness :
    subdirEntry ∈ [subdirEntry] ∧ subdirEntry.isFile = false ∧
    (clear_tempfiles 20000 [subdirEntry]).Sublist [subdirEntry] ∧
    subdirEntry ∈ clear_tempfiles 20000 [subdirEntry] :=
  ⟨by simp, rfl, (claim_C8 20000 [subdirEntry]).1,
    (claim_C8 20000 [subdirEntry]).2 subdirEntry (by simp) rfl⟩

/-- One row of the event log produced by the (external) `pm4py.format_dataframe`
call: the values of the designated case, activity and timestamp columns.
Cell values are modelled as `String`. -/
structure Event where
  case_id : String
  activity : String
  timestamp : String
deriving DecidableEq

/-- Model of the external `pm4py.format_dataframe`: one event per dataframe
row (the spec's "one row per activity occurrence"), projecting the columns
designated as case, activity and timestamp. -/
def format_dataframe (df : List (String → String))
    (case_id activity_key timestamp_key : String) : List Event :=
  df.map fun row => ⟨row case_id, row activity_key, row timestamp_key⟩

/-- Embedding of `load_event_log_from_dataframe` (lines 61-85). Without an
end-timestamp column the dataframe is converted directly; with one, each
row is split into a `_start` row carrying the start timestamp and an
`_end` row carrying the end timestamp (dict `new_data` of the source,
rebuilt as the row list `df_new`), and the rebuilt dataframe is
converted. Python `str` on a cell is the identity here because cells are
modelled as strings. -/
def load_event_log_from_dataframe (df : List (String → String))
    (case_column activity_column timestamp_column : String)
    (timestamp_end_column : Option String) : List Event :=
  match timestamp_end_column with
  | none => format_dataframe df case_column activity_column timestamp_column
  | some te =>
      let df_new : List (String → String) :=
        df.flatMap fun row =>
          [fun c => if c = case_column then row case_column
              else if c = activity_column then row activity_column ++ "_start"
              else if c = timestamp_column then row timestamp_column else "",
           fun c => if c = case_column then row case_column
              else if c = activity_column then row activity_column ++ "_end"
              else if c = timestamp_column then row te else ""]
      format_dataframe df_new case_column activity_column timestamp_column

lemma length_flatMap_pair {α β : Type} (l : List α) (f g : α → β) :
    (l.flatMap fun x => [f x, g x]).length = 2 * l.length := by
  induction l with
  | nil => rfl
  | cons x xs ih =>
      simp only [List.flatMap_cons, List.length_append, List.length_cons,
        List.length_nil, List.length_singleton, ih]
      omega

/-- C2: with no end-timestamp column the event log has one row per input
row; with an end-timestamp column each input row yields exactly the
`_start` event carrying the start timestamp followed by the `_end` event
carrying the end timestamp, both with the row's case identifier, so n
input rows yield 2n events. The selected column names are assumed
pairwise distinct, which is what the script's validation guarantees at
the only call site. -/
theorem claim_C2 :
    ∀ (df : List (String → String)) (c a t te : String),
      c ≠ a → c ≠ t → c ≠ te → a ≠ t → a ≠ te → t ≠ te →
      (load_event_log_from_dataframe df c a t none).length = df.length ∧
      load_event_log_from_dataframe df c a t (some te) =
        df.flatMap (fun row =>
          [⟨row c, row a ++ "_start", row t⟩, ⟨row c, row a ++ "_end", row te⟩]) ∧
      (load_event_log_from_dataframe df c a t (some te)).length = 2 * df.length := by
  intro df c a t te hca hct hcte hat hate htte
  have hmain : load_event_log_from_dataframe df c a t (some te) =
      df.flatMap (fun row =>
        [⟨row c, row a ++ "_start", row t⟩, ⟨row c, row a ++ "_end", row te⟩]) := by
    induction df with
    | nil => rfl
    | cons r rest ih =>
        simp only [load_event_log_from_dataframe, format_dataframe,
          List.flatMap_cons, List.map_append] at ih ⊢
        simp [Ne.symm hca, Ne.symm hct, Ne.symm hat, ih]
  refine ⟨?_, hmain, ?_⟩
  · simp [load_event_log_from_dataframe, format_dataframe]
  · rw [hmain]
    exact length_flatMap_pair df _ _

/-- A one-row dataframe used by the C2 witness. -/
def sampleRow : String → String := fun c =>
  if c = "case" then "1" else if c = "act" then "A"
  else if c = "ts" then "t0" else if c = "te" then "t1" else ""

/-- C2 witness: on a concrete one-row dataframe with distinct column names
the conversion yields exactly the `_start` and `_end` events, 2 = 2·1
rows. -/
theorem claim_C2_witness :
    ("case" : String) ≠ "act" ∧
    load_event_log_from_dataframe [sampleRow] "case" "act" "ts" (some "te") =
      [⟨"1", "A_start", "t0"⟩, ⟨"1", "A_end", "t1"⟩] ∧
    (load_event_log_from_dataframe [sampleRow] "case" "act" "ts" (some "te")).length
      = 2 * 1 := by
  have h := claim_C2 [sampleRow] "case" "act" "ts" "te"
    (by decide) (by decide) (by decide) (by decide) (by decide) (by decide)
  exact ⟨by decide, by rw [h.2.1]; rfl, h.2.2⟩

/-- Embedding of the warning logic (lines 222-254): `any_warning` is true
when two selected columns coincide, when the start-timestamp column's
dtype is not datetime64[ns], or when an end-timestamp column is selected
and its dtype is not datetime64[ns]. `dtype` maps each column name to the
dtype string of that column in the loaded dataframe; an unselected
end-timestamp column is `none` (Streamlit's empty selectbox). -/
def any_warning (case_column activity_column timestamp_start_column : String)
    (timestamp_end_column : Option String) (dtype : String → String) : Bool :=
  (case_column == activity_column) ||
  (case_column == timestamp_start_column) ||
  (some case_column == timestamp_end_column) ||
  (activity_column == timestamp_start_column) ||
  (some activity_column == timestamp_end_column) ||
  (some timestamp_start_column == timestamp_end_column) ||
  (dtype timestamp_start_column != "datetime64[ns]") ||
  (match timestamp_end_column with
   | none => false
   | some te => dtype te != "datetime64[ns]")

/-- Embedding of lines 255-257: the event-log conversion is run, and `log`
set, only when no warning was raised; otherwise `log` stays unset. -/
def conversionStep (df : List (String → String))
    (case_column activity_column timestamp_start_column : String)
    (timestamp_end_column : Option String) (dtype : String → String) :
    Option (List Event) :=
  if any_warning case_column activity_column timestamp_start_column
      timestamp_end_column dtype
  then none
  else some (load_event_log_from_dataframe df case_column activity_column
    timestamp_start_column timestamp_end_column)

/-- C4: a warning is raised exactly when two selected columns coincide or a
selected timestamp column's dtype is not datetime64[ns]; the conversion
is skipped (log unset) exactly when a warning is raised, and runs exactly
when none is. -/
theorem claim_C4 :
    ∀ (df : List (String → String)) (c a t : String) (te : Option String)
      (dtype : String → String),
      ((c = a ∨ c = t ∨ a = t ∨ some c = te ∨ some a = te ∨ some t = te ∨
          dtype t ≠ "datetime64[ns]" ∨
          (∃ x, te = some x ∧ dtype x ≠ "datetime64[ns]")) ↔
        any_warning c a t te dtype = true) ∧
      (conversionStep df c a t te dtype = none ↔ any_warning c a t te dtype = true) ∧
      (any_warning c a t te dtype = false →
        conversionStep df c a t te dtype =
          some (load_event_log_from_dataframe df c a t te)) := by
  intro df c a t te dtype
  refine ⟨?_, ?_, ?_⟩
  · cases te with
    | none =>
        simp only [any_warning, Bool.or_eq_true, beq_iff_eq, bne_iff_ne,
          reduceCtorEq, or_false, false_and, exists_false]
        tauto
    | some x =>
        simp only [any_warning, Bool.or_eq_true, beq_iff_eq, bne_iff_ne,
          Option.some.injEq, exists_eq_left']
        tauto
  · unfold conversionStep
    rcases h : any_warning c a t te dtype <;> simp [h]
  · intro h
    unfold conversionStep
    rw [h]
    simp

/-- A dtype assignment under which every column is datetime-typed. -/
def goodDtype : String → String := fun _ => "datetime64[ns]"

/-- C4 witness: with pairwise distinct concrete columns, no end-timestamp
selection and a datetime start column, no warning is raised and the
conversion runs. -/
theorem claim_C4_witness :
    any_warning "case" "act" "ts" none goodDtype = false ∧
    conversionStep [] "case" "act" "ts" none goodDtype =
      some (load_event_log_from_dataframe [] "case" "act" "ts" none) :=
  ⟨by decide, (claim_C4 [] "case" "act" "ts" none goodDtype).2.2 (by decide)⟩

/-- The error message the script shows at line 121 when loading fails with
exception text `e`. -/
def errMsg (e : String) : String :=
  "Error loading file: " ++ e ++
    ", if it is a network error most likely you have the file open in Excel. Close it."

/-- Embedding of lines 116-121: one interaction's file-load step. `load`
is the fallible reader (`load_file_to_dataframe` behind `pd.read_excel`),
`uploaded_file` the uploader state. The result is the pair of the `df`
variable (set only on success) and the displayed error message (set only
on failure); the load is invoked exactly once and never retried. -/
def loadStep {α β : Type} (load : α → Except String β)
    (uploaded_file : Option α) : Option β × Option String :=
  match uploaded_file with
  | none => (none, none)
  | some f =>
      match load f with
      | .ok d => (some d, none)
      | .error e => (none, some (errMsg e))

/-- The upload-procedure interaction end to end: the column form,
validation and conversion (lines 171-257) run only when `df` was set by
the load step; the resulting `log` is returned. -/
def script_log {α : Type} (load : α → Except String (List (String → String)))
    (uploaded_file : Option α) (c a t : String) (te : Option String)
    (dtype : String → String) : Option (List Event) :=
  match (loadStep load uploaded_file).1 with
  | none => none
  | some df => conversionStep df c a t te dtype

/-- C6: when the load of the uploaded file fails with exception `e`, the
error message naming the file-open-in-Excel cause is shown, `df` stays
unset, and no validation or conversion happens — `log` stays unset; when
the load succeeds, `df` is set to its result and no error is shown. -/
theorem claim_C6 :
    ∀ {α : Type} (load : α → Except String (List (String → String))) (f : α)
      (c a t : String) (te : Option String) (dtype : String → String),
      (∀ e, load f = .error e →
        loadStep load (some f) = (none, some (errMsg e)) ∧
        script_log load (some f) c a t te dtype = none) ∧
      (∀ d, load f = .ok d → loadStep load (some f) = (some d, none)) := by
  intro α load f c a t te dtype
  refine ⟨fun e he => ⟨?_, ?_⟩, fun d hd => ?_⟩
  · simp [loadStep, he]
  · simp [script_log, loadStep, he]
  · simp [loadStep, hd]

/-- A reader that always fails, for the C6 witness. -/
def failingLoad : Nat → Except String (List (String → String)) :=
  fun _ => .error "boom"

/-- C6 witness: a failing load at a concrete input shows the error message
and leaves both the dataframe and the log unset. -/
theorem claim_C6_witness :
    failingLoad 0 = Except.error "boom" ∧
    loadStep failingLoad (some 0) = (none, some (errMsg "boom")) ∧
    script_log failingLoad (some 0) "case" "act" "ts" none (fun _ => "object")
      = none := by
  have h := (claim_C6 failingLoad 0 "case" "act" "ts" none (fun _ => "object")).1
    "boom" rfl
  exact ⟨rfl, h.1, h.2⟩

/-- Model of the external `pandas.read_excel`: the uploaded workbook is its
list of sheets (each sheet a dataframe); `sheet_name = n` yields the n-th
sheet, or an error when there is none. -/
def read_excel (file : List (List (String → String))) (sheet_name : ℕ) :
    Except String (List (String → String)) :=
  match file.get? sheet_name with
  | some sheet => .ok sheet
  | none => .error "sheet not found"

/-- Embedding of `load_file_to_dataframe` (lines 46-58): reads the workbook
with `sheet_name=0`. -/
def load_file_to_dataframe (file : List (List (String → String))) :
    Except String (List (String → String)) :=
  read_excel file 0

/-- C7: `load_file_to_dataframe` returns exactly the first sheet of the
workbook, and its result does not depend on the remaining sheets, so data
on any other sheet never enters the analysis. -/
theorem claim_C7 :
    ∀ (sheet0 : List (String → String))
      (rest rest2 : List (List (String → String))),
      load_file_to_dataframe (sheet0 :: rest) = .ok sheet0 ∧
      load_file_to_dataframe (sheet0 :: rest) =
        load_file_to_dataframe (sheet0 :: rest2) :=
  fun _ _ _ => ⟨rfl, rfl⟩

/-- The three options of the load-procedure selectbox (line 111). -/
def load_procedures : List String :=
  ["Load from file", "Load example data 1 - Purchase orders",
   "Load example data 2 - Tablet production"]

/-- Embedding of the data-preview logic (lines 176-184): when the selected
procedure name minus its first 10 characters equals "Load example" all
rows are shown; otherwise the first 15 rows are shown when the dataframe
has more than 30 rows, else all rows. -/
def data_preview (select_load_procedure : String)
    (df : List (String → String)) : List (String → String) :=
  if select_load_procedure.drop 10 = "Load example" then df
  else if df.length > 30 then df.take 15
  else df

/-- C9: for each of the three selectable procedures the guard
`select_load_procedure[10:] == "Load example"` is false — the branch is
unreachable — so the preview is decided solely by whether the dataframe
has more than 30 rows. -/
theorem claim_C9 :
    (∀ p ∈ load_procedures, p.drop 10 ≠ "Load example") ∧
    ∀ p ∈ load_procedures, ∀ df : List (String → String),
      data_preview p df = if df.length > 30 then df.take 15 else df := by
  have hguard : ∀ p ∈ load_procedures, p.drop 10 ≠ "Load example" := by decide
  refine ⟨hguard, fun p hp df => ?_⟩
  unfold data_preview
  rw [if_neg (hguard p hp)]

/-- A 31-row dataframe for the C9 witness. -/
def demoDf : List (String → String) := List.replicate 31 sampleRow

/-- C9 witness: for the concrete procedure "Load from file" the guard is
false, and a 31-row dataframe is previewed as its first 15 rows. -/
theorem claim_C9_witness :
    ("Load from file" ∈ load_procedures) ∧
    "Load from file".drop 10 ≠ "Load example" ∧
    data_preview "Load from file" demoDf = demoDf.take 15 := by
  refine ⟨by simp [load_procedures],
    claim_C9.1 "Load from file" (by simp [load_procedures]), ?_⟩
  have h := claim_C9.2 "Load from file" (by simp [load_procedures]) demoDf
  rw [h]
  simp [demoDf]
